import Mathlib

/-!
Shallow embedding of the backend HTTP/2 session core
(`src/shrpx_http2_session.cc`).  The session object's scalar state, its
buffers and its timer/watcher bookkeeping are embedded as a Lean
structure; the member functions relevant to the verified properties are
embedded as pure functions from session state (plus explicit oracles for
the external collaborators: sockets, TLS, the nghttp2 codec) to session
state and return codes.
-/

namespace shrpx

/-- Connection states of `Http2Session` (enum in `shrpx_http2_session.h`,
used throughout `shrpx_http2_session.cc`). -/
inductive SessionState
  | DISCONNECTED
  | PROXY_CONNECTING
  | PROXY_CONNECTED
  | PROXY_FAILED
  | CONNECTING
  | CONNECT_FAILING
  | CONNECTED
  deriving DecidableEq, Repr

/-- Connection-check states (`CONNECTION_CHECK_NONE | REQUIRED | STARTED`). -/
inductive ConnCheckState
  | NONE
  | REQUIRED
  | STARTED
  deriving DecidableEq, Repr

/-- The handler slots `read_`, `write_`, `on_read_`, `on_write_` are member
function pointers; embedded as an enumeration of the member functions that
are ever stored in them. -/
inductive IOFn
  | noop
  | connected
  | readClear
  | writeClear
  | tlsHandshake
  | readTls
  | writeTls
  | downstreamRead
  | downstreamWrite
  | downstreamReadProxy
  | downstreamConnectProxy
  deriving DecidableEq, Repr

/-- The outbound buffer `wb_`: a fixed-capacity byte buffer.  `data` is the
readable content (`rleft() = data.length`), `cap - data.length` is the
writable space (`wleft()`). -/
structure WBuf where
  cap : Nat
  data : List Nat
  deriving DecidableEq, Repr

/-- `wb_.write(src, len)`: appends `min(wleft(), len)` bytes of `src` and
returns how many bytes were accepted. -/
def wbWrite (wb : WBuf) (src : List Nat) : WBuf × Nat :=
  let n := min (wb.cap - wb.data.length) src.length
  ({ cap := wb.cap, data := wb.data ++ src.take n }, n)

/-- The session-local state of `Http2Session`.  Handles to external
objects (the nghttp2 session, the SSL object, the fd, the proxy response
parser) are embedded as presence flags / optional values; timers and ev
watchers as armed/active flags; the attached downstream connections and
stream records as lists of identifiers. -/
structure Session where
  session_active : Bool
  rb : List Nat
  wb : WBuf
  data_pending : List Nat
  fd : Option Nat
  ssl_active : Bool
  proxy_htp : Bool
  settings_timer_armed : Bool
  connchk_timer_armed : Bool
  rt_armed : Bool
  wt_armed : Bool
  rev_active : Bool
  wev_active : Bool
  read_slot : IOFn
  write_slot : IOFn
  on_read_slot : IOFn
  on_write_slot : IOFn
  connection_check_state : ConnCheckState
  state : SessionState
  dconns : List Nat
  streams : List Nat
  write_requested : Bool
  flow_control : Bool
  deriving DecidableEq, Repr

/-- `Http2Session::should_hard_fail()` (lines 1786-1796). -/
def should_hard_fail (st : SessionState) : Bool :=
  match st with
  | .PROXY_CONNECTING => true
  | .PROXY_FAILED => true
  | .CONNECTING => true
  | .CONNECT_FAILING => true
  | _ => false

/-- `Http2Session::can_push_request()` (lines 1454-1457). -/
def can_push_request (s : Session) : Bool :=
  decide (s.state = .CONNECTED) &&
    decide (s.connection_check_state = .NONE)

/-- `Http2Session::disconnect(bool hard)` (lines 174-252): destroys the
codec session, resets both buffers, stops all four timers, reverts the
four dispatch slots to `noop`, stops both I/O watchers, frees the TLS
object, closes the fd, releases the tunnel parser, resets the check state
and the session state, then notifies the upstream of every attached
downstream connection with the `hard` flag (the swapped-out `dconns_`)
and deletes every stream record.  Returns the final session state and the
notification list. -/
def disconnect (hard : Bool) (s : Session) : Session × List (Nat × Bool) :=
  ({ session_active := false
     rb := []
     wb := { cap := s.wb.cap, data := [] }
     data_pending := s.data_pending
     fd := none
     ssl_active := false
     proxy_htp := false
     settings_timer_armed := false
     connchk_timer_armed := false
     rt_armed := false
     wt_armed := false
     rev_active := false
     wev_active := false
     read_slot := .noop
     write_slot := .noop
     on_read_slot := .noop
     on_write_slot := .noop
     connection_check_state := .NONE
     state := .DISCONNECTED
     dconns := []
     streams := []
     write_requested := s.write_requested
     flow_control := s.flow_control },
   s.dconns.map (fun d => (d, hard)))

/-- `timeoutcb` (lines 74-85), shared by the read timer `rt_` and the
write timer `wt_`: calls `disconnect(get_state() == CONNECTING)`.
Returns the new session state, the `hard` argument that was passed, and
the notifications issued by `disconnect`. -/
def timeoutcb (s : Session) : Session × Bool × List (Nat × Bool) :=
  let hard := decide (s.state = .CONNECTING)
  let r := disconnect hard s
  (r.1, hard, r.2)

/-- `Http2Session::submit_request` (lines 537-556).  The entry
`assert(state_ == CONNECTED)` is embedded as `Option`: `none` means the
assertion fires.  The codec call `nghttp2_submit_request` is an external
effect whose result is the oracle `stream_id` (negative = codec error);
on success the new stream record is inserted into `streams_` and the id
is stored on the downstream. -/
def submit_request (stream_id : Int) (s : Session) : Option (Session × Int) :=
  if s.state = .CONNECTED then
    if stream_id < 0 then some (s, -1)
    else some ({ s with streams := s.streams ++ [stream_id.toNat] }, 0)
  else none

/-- The configuration fields of `get_config()` consulted by
`initiate_connection` / `on_connect`, reduced to what the control flow
inspects (handles and numeric endpoints are external). -/
structure Config where
  downstream_http_proxy_host : Bool
  ssl_ctx : Bool
  downstream_no_tls : Bool
  http2_downstream_connection_window_bits : Nat
  deriving DecidableEq, Repr

/-- Oracle results of the external calls made by `on_connect`
(lines 1170-1320): TLS next-protocol query, nghttp2 session construction,
SETTINGS / WINDOW_UPDATE submission, `ssl::check_http2_requirement`, and
`terminate_session`. -/
structure OnConnectExt where
  next_proto_ok : Bool
  codec_new_ok : Bool
  submit_settings_ok : Bool
  window_update_ok : Bool
  check_http2_requirement : Bool
  terminate_ok : Bool
  deriving DecidableEq, Repr

/-- Oracle results of the external calls made by `initiate_connection`
(lines 256-416): socket creation, `connect(2)` (success or
`EINPROGRESS`), `SSL_new`, `SSL_set_fd`. -/
structure ConnectExt where
  socket_ok : Bool
  sock_fd : Nat
  connect_ok : Bool
  ssl_new_ok : Bool
  ssl_set_fd_ok : Bool
  oc : OnConnectExt
  deriving DecidableEq, Repr

/-- The 24-byte client connection preface
`"PRI * HTTP/2.0\r\n\r\nSM\r\n\r\n"` written by `on_connect`
(ASCII codes). -/
def clientPreface : List Nat :=
  [80, 82, 73, 32, 42, 32, 72, 84, 84, 80, 47, 50, 46, 48, 13, 10,
   13, 10, 83, 77, 13, 10, 13, 10]

/-- `Http2Session::on_connect()` (lines 1170-1320).  Sets
`state_ = CONNECTED` first; if TLS is active, fails unless h2 was
negotiated; constructs the codec session (callbacks installation and the
optional padding callback are codec-side effects); submits SETTINGS and,
for a connection window exponent above 16, a WINDOW_UPDATE; writes the
client preface into `wb_`; if TLS parameters are inadequate, terminates
the session with `INADEQUATE_SECURITY` and returns without arming the
connection-check timer; otherwise arms the connection-check timer and
signals a write.  The per-dconn pending-request push loop only touches
the external upstream collaborators and is elided. -/
def on_connect (cfg : Config) (ext : OnConnectExt) (s : Session) :
    Session × Int :=
  let s0 := { s with state := SessionState.CONNECTED }
  if cfg.ssl_ctx ∧ ¬ext.next_proto_ok then (s0, -1)
  else if ¬ext.codec_new_ok then (s0, -1)
  else
    let s1 := { s0 with session_active := true, flow_control := true }
    if ¬ext.submit_settings_ok then (s1, -1)
    else if cfg.http2_downstream_connection_window_bits > 16 ∧
        ¬ext.window_update_ok then (s1, -1)
    else
      let p := wbWrite s1.wb clientPreface
      let s2 := { s1 with wb := p.1 }
      if p.2 ≠ clientPreface.length then (s2, -1)
      else if ¬cfg.downstream_no_tls ∧ ¬ext.check_http2_requirement then
        if ¬ext.terminate_ok then (s2, -1) else (s2, 0)
      else
        ({ s2 with connchk_timer_armed := true, write_requested := true }, 0)

/-- Shared tail of `initiate_connection` (lines 384-410): stop and re-set
both watchers, start the write watcher, install `connected` as the write
handler and `downstream_write` / `downstream_read` as the codec-facing
handlers; unless already `CONNECTED`, move to `CONNECTING` and arm the
write timer, otherwise re-arm the read timer. -/
def initiate_tail (s : Session) : Session × Int :=
  let s1 := { s with
              rev_active := false
              wev_active := true
              write_slot := IOFn.connected
              on_write_slot := IOFn.downstreamWrite
              on_read_slot := IOFn.downstreamRead }
  if s1.state ≠ .CONNECTED then
    ({ s1 with state := SessionState.CONNECTING, wt_armed := true }, 0)
  else
    ({ s1 with rt_armed := true }, 0)

/-- `Http2Session::initiate_connection()` (lines 256-416).  Branches:
proxy configured from `DISCONNECTED` opens the proxy socket and enters
`PROXY_CONNECTING` with the proxy handlers and a fresh response parser;
from `DISCONNECTED` or `PROXY_CONNECTED`, either sets up TLS (creating
the socket first when `DISCONNECTED`) or, clear text, creates the socket
when `DISCONNECTED`, while in the clear-text `PROXY_CONNECTED` branch the
source runs `if (on_connect() != -1) { state_ = CONNECT_FAILING;
return -1; }` (lines 374-381) before falling into the shared tail.
Every other state is unreachable (`DIE()`). -/
def initiate_connection (cfg : Config) (ext : ConnectExt) (s : Session) :
    Session × Int :=
  if cfg.downstream_http_proxy_host ∧ s.state = .DISCONNECTED then
    if ¬ext.socket_ok then (s, -1)
    else
      let s1 := { s with fd := some ext.sock_fd }
      if ¬ext.connect_ok then (s1, -1)
      else
        ({ s1 with
           wev_active := true
           wt_armed := true
           write_slot := IOFn.connected
           on_read_slot := IOFn.downstreamReadProxy
           on_write_slot := IOFn.downstreamConnectProxy
           proxy_htp := true
           state := SessionState.PROXY_CONNECTING }, 0)
  else if s.state = .DISCONNECTED ∨ s.state = .PROXY_CONNECTED then
    if cfg.ssl_ctx then
      if ¬ext.ssl_new_ok then (s, -1)
      else
        let s1 := { s with ssl_active := true }
        if s1.state = .DISCONNECTED then
          if ¬ext.socket_ok then (s1, -1)
          else
            let s2 := { s1 with fd := some ext.sock_fd }
            if ¬ext.connect_ok then (s2, -1)
            else if ¬ext.ssl_set_fd_ok then (s2, -1)
            else initiate_tail s2
        else if ¬ext.ssl_set_fd_ok then (s1, -1)
        else initiate_tail s1
    else
      if s.state = .DISCONNECTED then
        if ¬ext.socket_ok then (s, -1)
        else
          let s1 := { s with fd := some ext.sock_fd }
          if ¬ext.connect_ok then (s1, -1)
          else initiate_tail s1
      else
        let oc := on_connect cfg ext.oc s
        if oc.2 ≠ -1 then
          ({ oc.1 with state := SessionState.CONNECT_FAILING }, -1)
        else initiate_tail oc.1
  else (s, 0)

/-- `htp_hdrs_completecb` (lines 418-436): the CONNECT response parser's
headers-complete hook sets `PROXY_CONNECTED` when the parsed status code
is 200 and `PROXY_FAILED` otherwise; it returns 0 either way. -/
def htp_hdrs_completecb (status_code : Nat) (s : Session) : Session × Int :=
  if status_code = 200 then ({ s with state := SessionState.PROXY_CONNECTED }, 0)
  else ({ s with state := SessionState.PROXY_FAILED }, 0)

/-- Outcome of one `http_parser_execute` call on a chunk of proxy
response bytes: a parse error, bytes consumed without completing the
header section, or headers complete with the parsed status code. -/
inductive ParseOutcome
  | perr
  | incomplete
  | headersComplete (status : Nat)
  deriving DecidableEq, Repr

/-- One iteration of the loop in
`Http2Session::downstream_read_proxy()` (lines 451-485): the buffered
bytes are fed to the response parser (its headers-complete hook is
`htp_hdrs_completecb`); a parser error fails the read; then the switch on
`state_` re-enters `initiate_connection` on `PROXY_CONNECTED` (failing
if that fails) and returns failure on `PROXY_FAILED`.  The returned flag
records whether `initiate_connection` was re-entered. -/
def downstream_read_proxy_step (cfg : Config) (ext : ConnectExt)
    (po : ParseOutcome) (s : Session) : Session × Int × Bool :=
  match po with
  | .perr => (s, -1, false)
  | .incomplete =>
    match s.state with
    | .PROXY_CONNECTED =>
      let r := initiate_connection cfg ext s
      if r.2 ≠ 0 then (r.1, -1, true) else (r.1, 0, true)
    | .PROXY_FAILED => (s, -1, false)
    | _ => (s, 0, false)
  | .headersComplete status =>
    let s1 := (htp_hdrs_completecb status s).1
    match s1.state with
    | .PROXY_CONNECTED =>
      let r := initiate_connection cfg ext s1
      if r.2 ≠ 0 then (r.1, -1, true) else (r.1, 0, true)
    | .PROXY_FAILED => (s1, -1, false)
    | _ => (s1, 0, false)

/-- The `for (;;)` loop of `Http2Session::downstream_write()`
(lines 1377-1395).  `chunks` is the stream of byte blocks the successive
`nghttp2_session_mem_send` calls would return (an empty block stands for
the terminating 0 return; after the list is exhausted the codec returns
an error when `err` is set, 0 otherwise).  Each block is offered to
`wb_.write`; a partial write stores the unwritten remainder in
`data_pending_` / `data_pendinglen_` and returns 0 at once.  Result:
final buffer, pending tail, unconsumed codec output, and `some rv` for
an in-loop return (`none` = the loop broke out normally). -/
def sendLoop (err : Bool) (wb : WBuf) :
    List (List Nat) → WBuf × List Nat × List (List Nat) × Option Int
  | [] => (wb, [], [], if err then some (-1) else none)
  | c :: cs =>
    if c.length = 0 then (wb, [], cs, none)
    else
      let p := wbWrite wb c
      if p.2 < c.length then (p.1, c.drop p.2, cs, some 0)
      else sendLoop err p.1 cs

/-- Shared epilogue of `downstream_read` (lines 1351-1360) and
`downstream_write` (lines 1397-1405): when the loop ended normally, the
session is reported dead (-1) exactly when the codec wants neither to
read nor to write and the outbound buffer holds no bytes. -/
def dwFinish (wantRead wantWrite : Bool)
    (r : WBuf × List Nat × List (List Nat) × Option Int) :
    WBuf × List Nat × List (List Nat) × Int :=
  match r.2.2.2 with
  | some rv => (r.1, r.2.1, r.2.2.1, rv)
  | none =>
    if wantRead = false ∧ wantWrite = false ∧ r.1.data.length = 0 then
      (r.1, r.2.1, r.2.2.1, -1)
    else (r.1, r.2.1, r.2.2.1, 0)

/-- `Http2Session::downstream_write()` (lines 1363-1406).  If
`data_pending_` is set, copy as much of it as fits into `wb_`; if it did
not all fit, advance the tail and return 0 without calling the codec;
otherwise clear the tail and run the `mem_send` loop, then the
quiescence check.  `wantRead` / `wantWrite` are the values
`nghttp2_session_want_read` / `want_write` report after the pass. -/
def downstream_write (err wantRead wantWrite : Bool)
    (chunks : List (List Nat)) (wb : WBuf) (pending : List Nat) :
    WBuf × List Nat × List (List Nat) × Int :=
  if pending.length ≠ 0 then
    let p := wbWrite wb pending
    if p.2 < pending.length then (p.1, pending.drop p.2, chunks, 0)
    else dwFinish wantRead wantWrite (sendLoop err p.1 chunks)
  else dwFinish wantRead wantWrite (sendLoop err wb chunks)

/-- `Http2Session::downstream_read()` (lines 1328-1361): feeds every
buffered chunk to `nghttp2_session_mem_recv` (`recvOk` = no chunk made
the codec report an error; a codec error is only possible when `rb_` had
bytes), then runs the quiescence check; when alive it signals a write
(second component) and returns 0. -/
def downstream_read (recvOk wantRead wantWrite : Bool) (rb : List Nat)
    (wb : WBuf) : Int × Bool :=
  if rb.length ≠ 0 ∧ ¬recvOk then (-1, false)
  else if wantRead = false ∧ wantWrite = false ∧ wb.data.length = 0 then
    (-1, false)
  else (0, true)

/-- HTTP/2 frame types dispatched on by the session callbacks. -/
inductive FrameType
  | DATA
  | HEADERS
  | RST_STREAM
  | SETTINGS
  | PUSH_PROMISE
  | OTHER
  deriving DecidableEq, Repr

/-- The frame-header fields the callbacks inspect. -/
structure FrameHd where
  ty : FrameType
  flagEndStream : Bool
  flagAck : Bool
  stream_id : Nat
  deriving DecidableEq, Repr

/-- `NGHTTP2_SETTINGS_TIMEOUT` GOAWAY error code (0x4). -/
def NGHTTP2_SETTINGS_TIMEOUT : Nat := 4

/-- `NGHTTP2_PROTOCOL_ERROR` error code (0x1). -/
def NGHTTP2_PROTOCOL_ERROR : Nat := 1

/-- `NGHTTP2_ERR_TEMPORAL_CALLBACK_FAILURE` (-521). -/
def NGHTTP2_ERR_TEMPORAL_CALLBACK_FAILURE : Int := -521

/-- Effect of `on_frame_send_callback` (lines 1099-1132) on the
SETTINGS-ACK timer `settings_timer_`: the DATA/HEADERS arm only touches
the per-stream read idle timer and returns; a SETTINGS frame sent without
the ACK flag calls `start_settings_timer()`. -/
def on_frame_send_settings_timer (hd : FrameHd) (armed : Bool) : Bool :=
  if hd.ty = .DATA ∨ hd.ty = .HEADERS then armed
  else if hd.ty = .SETTINGS ∧ hd.flagAck = false then true
  else armed

/-- Effect of `on_frame_recv_callback` (lines 894-1030) on the
SETTINGS-ACK timer: the SETTINGS arm calls `stop_settings_timer()` only
when the ACK flag is present (lines 1009-1014); no other arm touches the
timer. -/
def on_frame_recv_settings_timer (hd : FrameHd) (armed : Bool) : Bool :=
  if hd.ty = .SETTINGS ∧ hd.flagAck = true then false else armed

/-- Observable outcome of `settings_timeout_cb` (lines 61-72). -/
structure TimeoutFireOut where
  armed : Bool
  terminate_code : Nat
  disconnected : Bool
  write_signalled : Bool
  deriving DecidableEq, Repr

/-- `settings_timeout_cb` (lines 61-72): stops the settings timer, calls
`terminate_session(NGHTTP2_SETTINGS_TIMEOUT)` (queueing the GOAWAY with
that code), and on terminate failure disconnects, otherwise signals a
write. -/
def settings_timeout_fire (terminate_ok : Bool) : TimeoutFireOut :=
  if terminate_ok then
    { armed := false
      terminate_code := NGHTTP2_SETTINGS_TIMEOUT
      disconnected := false
      write_signalled := true }
  else
    { armed := false
      terminate_code := NGHTTP2_SETTINGS_TIMEOUT
      disconnected := true
      write_signalled := false }

/-- A frame-level event visible to the settings-timer logic. -/
inductive SessEvent
  | send (hd : FrameHd)
  | recv (hd : FrameHd)
  deriving DecidableEq, Repr

/-- One event's effect on the SETTINGS-ACK timer. -/
def settingsTimerStep (armed : Bool) : SessEvent → Bool
  | .send hd => on_frame_send_settings_timer hd armed
  | .recv hd => on_frame_recv_settings_timer hd armed

/-- Timer state after a trace of frame events. -/
def settingsTimerRun (armed : Bool) (evs : List SessEvent) : Bool :=
  evs.foldl settingsTimerStep armed

/-- Whether an event arms the SETTINGS-ACK timer (only sending a
SETTINGS frame without the ACK flag does). -/
def armsSettingsTimer : SessEvent → Bool
  | .send hd => decide (hd.ty = .SETTINGS ∧ hd.flagAck = false)
  | .recv _ => false

/-- Response states of the external `Downstream` object (the subset the
session callbacks read and write). -/
inductive ResponseState
  | INITIAL
  | HEADER_COMPLETE
  | MSG_COMPLETE
  | MSG_BAD_HEADER
  | MSG_RESET
  deriving DecidableEq, Repr

/-- The response-side fields of the `Downstream` object touched by
`on_header_callback`. -/
structure Downstream where
  response_state : ResponseState
  response_content_length : Int
  response_headers : List (List Nat × List Nat)
  response_headers_sum : Nat
  expect_final_response : Bool
  deriving DecidableEq, Repr

/-- Modelled from the spec: `util::parse_uint` (util.cc is not under
src/).  The spec rejects a content-length value unless it is a valid
non-negative integer; modelled as: the value is a nonempty string of
ASCII decimal digits, whose numeric value is returned, and -1 otherwise. -/
def parse_uint (v : List Nat) : Int :=
  if v.length ≠ 0 ∧ v.all (fun c => 48 ≤ c && c ≤ 57) then
    Int.ofNat (v.foldl (fun acc c => acc * 10 + (c - 48)) 0)
  else -1

/-- Header category of a HEADERS frame (`nghttp2_headers_category`). -/
inductive HCat
  | REQUEST
  | RESPONSE
  | PUSH_RESPONSE
  | HEADERS
  deriving DecidableEq, Repr

/-- Inputs of one `on_header_callback` invocation (lines 689-758).
`ds` is the downstream reached through the stream's user data (`none`
when the stream, its dconn or its downstream is unknown).  The external
header utilities from http2.cc / the upstream collaborator are oracles:
`max_headers_sum` (`Downstream::MAX_HEADERS_SUM`), `nv_ok`
(`http2::check_nv`), `token_content_length` (`http2::lookup_token` ==
`HD_CONTENT_LENGTH`), `pseudo_allowed`
(`response_pseudo_header_allowed`), `header_allowed`
(`http2::http2_header_allowed`). -/
structure HeaderCbIn where
  frame_type : FrameType
  headers_cat : HCat
  stream_id : Nat
  name : List Nat
  value : List Nat
  ds : Option Downstream
  max_headers_sum : Nat
  nv_ok : Bool
  token_content_length : Bool
  pseudo_allowed : Bool
  header_allowed : Bool
  deriving DecidableEq, Repr

/-- `on_header_callback` (lines 689-758).  Returns the updated downstream
(if one was found), the RST_STREAM submissions `(stream_id, error_code)`
made through the session, and the callback's return value (0 or
`NGHTTP2_ERR_TEMPORAL_CALLBACK_FAILURE`).  The content-length arm
(lines 737-752): a value `util::parse_uint` rejects, or a content-length
arriving when `response_content_length` is already set, submits
RST_STREAM(PROTOCOL_ERROR), marks the response `MSG_BAD_HEADER` and
reports a temporal failure without adding the header. -/
def on_header_callback (i : HeaderCbIn) :
    Option Downstream × List (Nat × Nat) × Int :=
  match i.ds with
  | none => (none, [], 0)
  | some ds =>
    if i.frame_type ≠ .HEADERS ∨
        (i.headers_cat ≠ .RESPONSE ∧ ds.expect_final_response = false) then
      (some ds, [], 0)
    else if ds.response_headers_sum > i.max_headers_sum then
      (some ds, [], NGHTTP2_ERR_TEMPORAL_CALLBACK_FAILURE)
    else if i.nv_ok = false then (some ds, [], 0)
    else if i.name.head? = some 58 ∧ i.pseudo_allowed = false then
      (some ds, [(i.stream_id, NGHTTP2_PROTOCOL_ERROR)],
       NGHTTP2_ERR_TEMPORAL_CALLBACK_FAILURE)
    else if i.header_allowed = false then
      (some ds, [(i.stream_id, NGHTTP2_PROTOCOL_ERROR)],
       NGHTTP2_ERR_TEMPORAL_CALLBACK_FAILURE)
    else if i.token_content_length then
      if parse_uint i.value = -1 then
        (some { ds with response_state := ResponseState.MSG_BAD_HEADER },
         [(i.stream_id, NGHTTP2_PROTOCOL_ERROR)],
         NGHTTP2_ERR_TEMPORAL_CALLBACK_FAILURE)
      else if ds.response_content_length ≠ -1 then
        (some { ds with response_state := ResponseState.MSG_BAD_HEADER },
         [(i.stream_id, NGHTTP2_PROTOCOL_ERROR)],
         NGHTTP2_ERR_TEMPORAL_CALLBACK_FAILURE)
      else
        (some { ds with
                response_content_length := parse_uint i.value
                response_headers := ds.response_headers ++ [(i.name, i.value)] },
         [], 0)
    else
      (some { ds with
              response_headers := ds.response_headers ++ [(i.name, i.value)] },
       [], 0)

/-- A freshly constructed `Http2Session` (constructor, lines 134-170):
no codec, empty buffers, all timers and watchers idle, all four dispatch
slots `noop`, check state `NONE`, state `DISCONNECTED`; a 1024-byte
outbound buffer stands for the fixed-size `wb_`. -/
def baseSession : Session :=
  { session_active := false
    rb := []
    wb := { cap := 1024, data := [] }
    data_pending := []
    fd := none
    ssl_active := false
    proxy_htp := false
    settings_timer_armed := false
    connchk_timer_armed := false
    rt_armed := false
    wt_armed := false
    rev_active := false
    wev_active := false
    read_slot := IOFn.noop
    write_slot := IOFn.noop
    on_read_slot := IOFn.noop
    on_write_slot := IOFn.noop
    connection_check_state := ConnCheckState.NONE
    state := SessionState.DISCONNECTED
    dconns := []
    streams := []
    write_requested := false
    flow_control := false }

/-- Configuration with a forward HTTP proxy and no TLS toward the
backend (the clear-text "with proxy" configuration). -/
def cfgProxyClear : Config :=
  { downstream_http_proxy_host := true
    ssl_ctx := false
    downstream_no_tls := true
    http2_downstream_connection_window_bits := 16 }

/-- External-call oracle where every collaborator call succeeds. -/
def extAllOk : ConnectExt :=
  { socket_ok := true
    sock_fd := 4
    connect_ok := true
    ssl_new_ok := true
    ssl_set_fd_ok := true
    oc := { next_proto_ok := true
            codec_new_ok := true
            submit_settings_ok := true
            window_update_ok := true
            check_http2_requirement := true
            terminate_ok := true } }

/-- Oracle where `on_connect` fails (codec session construction fails). -/
def extOnConnectFails : ConnectExt :=
  { extAllOk with oc := { extAllOk.oc with codec_new_ok := false } }

/-- Session sitting in `PROXY_CONNECTED` with the tunnel fd open, as
left by a successful CONNECT exchange. -/
def sessionTunnelEstablished : Session :=
  { baseSession with state := SessionState.PROXY_CONNECTED, fd := some 4 }

/-- A downstream whose response content length is already recorded
(first `content-length: 5` seen), response headers still empty. -/
def dsDupCL : Downstream :=
  { response_state := ResponseState.INITIAL
    response_content_length := 5
    response_headers := []
    response_headers_sum := 0
    expect_final_response := false }

/-- A duplicate `content-length: 3` response header arriving on stream 1
for `dsDupCL` (name bytes spell "content-length"). -/
def hdrInDup : HeaderCbIn :=
  { frame_type := FrameType.HEADERS
    headers_cat := HCat.RESPONSE
    stream_id := 1
    name := [99, 111, 110, 116, 101, 110, 116, 45, 108, 101, 110, 103, 116, 104]
    value := [51]
    ds := some dsDupCL
    max_headers_sum := 32768
    nv_ok := true
    token_content_length := true
    pseudo_allowed := true
    header_allowed := true }

/-- C7: `should_hard_fail()` returns true exactly in the states
`PROXY_CONNECTING`, `PROXY_FAILED`, `CONNECTING`, `CONNECT_FAILING`, and
false in every other state. -/
theorem should_hard_fail_spec :
    ∀ st : SessionState, should_hard_fail st = true ↔
      (st = .PROXY_CONNECTING ∨ st = .PROXY_FAILED ∨ st = .CONNECTING ∨
       st = .CONNECT_FAILING) := by
  intro st
  cases st <;> simp [should_hard_fail]

/-- C6: when the read or write timer fires, `timeoutcb` calls
`disconnect(hard)` where the `hard` argument is true iff the session
state is `CONNECTING` at expiry. -/
theorem timeout_hard_iff_connecting :
    ∀ s : Session,
      ((timeoutcb s).2.1 = true ↔ s.state = .CONNECTING) ∧
      timeoutcb s = ((disconnect (timeoutcb s).2.1 s).1, (timeoutcb s).2.1,
        (disconnect (timeoutcb s).2.1 s).2) := by
  intro s
  exact ⟨by simp [timeoutcb], rfl⟩

/-- C9: `disconnect(hard)` is idempotent -- a second call from the state
a first call left behind returns that very state and issues no further
notifications -- and its result has the codec destroyed, both buffers
reset, all timers and I/O watchers stopped, all four dispatch slots at
`noop`, check state `NONE` and session state `DISCONNECTED`. -/
theorem disconnect_idempotent :
    ∀ (hard hard2 : Bool) (s : Session),
      disconnect hard2 (disconnect hard s).1 = ((disconnect hard s).1, []) ∧
      (disconnect hard s).1.session_active = false ∧
      (disconnect hard s).1.rb = [] ∧
      (disconnect hard s).1.wb.data = [] ∧
      (disconnect hard s).1.settings_timer_armed = false ∧
      (disconnect hard s).1.connchk_timer_armed = false ∧
      (disconnect hard s).1.rt_armed = false ∧
      (disconnect hard s).1.wt_armed = false ∧
      (disconnect hard s).1.rev_active = false ∧
      (disconnect hard s).1.wev_active = false ∧
      (disconnect hard s).1.read_slot = .noop ∧
      (disconnect hard s).1.write_slot = .noop ∧
      (disconnect hard s).1.on_read_slot = .noop ∧
      (disconnect hard s).1.on_write_slot = .noop ∧
      (disconnect hard s).1.connection_check_state = .NONE ∧
      (disconnect hard s).1.state = .DISCONNECTED := by
  intro hard hard2 s
  exact ⟨rfl, rfl, rfl, rfl, rfl, rfl, rfl, rfl, rfl, rfl, rfl, rfl, rfl,
         rfl, rfl, rfl⟩

/-- C2: `submit_request` is accepted (its entry assertion holds) exactly
in state `CONNECTED`, and `can_push_request()` returns true exactly when
the state is `CONNECTED` and the connection-check state is `NONE`. -/
theorem submit_request_gating :
    ∀ (s : Session) (stream_id : Int),
      ((submit_request stream_id s).isSome ↔ s.state = .CONNECTED) ∧
      (can_push_request s = true ↔
        (s.state = .CONNECTED ∧ s.connection_check_state = .NONE)) := by
  intro s stream_id
  constructor
  · by_cases h : s.state = SessionState.CONNECTED <;>
      simp [submit_request, h]
    split <;> simp
  · simp [can_push_request]

/-- C1: in the clear-text "with proxy" branch of `initiate_connection`
(state `PROXY_CONNECTED`, no TLS), the source's `if (on_connect() != -1)`
inverts the intended contract: when `on_connect` succeeds the session is
moved to `CONNECT_FAILING` and the call fails, and when `on_connect`
fails (here: codec construction fails, so no codec session exists) the
call proceeds and reports success. -/
theorem initiate_connection_proxy_cleartext_inverted :
    ((initiate_connection cfgProxyClear extAllOk sessionTunnelEstablished).2
        = -1 ∧
     (initiate_connection cfgProxyClear extAllOk
        sessionTunnelEstablished).1.state = SessionState.CONNECT_FAILING) ∧
    ((initiate_connection cfgProxyClear extOnConnectFails
        sessionTunnelEstablished).2 = 0 ∧
     (initiate_connection cfgProxyClear extOnConnectFails
        sessionTunnelEstablished).1.state = SessionState.CONNECTED ∧
     (initiate_connection cfgProxyClear extOnConnectFails
        sessionTunnelEstablished).1.session_active = false) := by
  exact ⟨⟨rfl, rfl⟩, rfl, rfl, rfl⟩

/-- C5: the CONNECT-response headers-complete callback classifies the
parsed status: `PROXY_CONNECTED` iff the status is exactly 200,
`PROXY_FAILED` for every other status; on `PROXY_CONNECTED` the read
path re-enters `initiate_connection`, and on `PROXY_FAILED` it returns
failure. -/
theorem proxy_tunnel_status_classification :
    ∀ (s : Session) (status : Nat) (cfg : Config) (ext : ConnectExt),
      ((htp_hdrs_completecb status s).1.state = .PROXY_CONNECTED ↔
        status = 200) ∧
      (status ≠ 200 →
        (htp_hdrs_completecb status s).1.state = .PROXY_FAILED) ∧
      (status = 200 →
        (downstream_read_proxy_step cfg ext (.headersComplete status) s).2.2
          = true) ∧
      (status ≠ 200 →
        (downstream_read_proxy_step cfg ext (.headersComplete status) s).2.1
            = -1 ∧
        (downstream_read_proxy_step cfg ext (.headersComplete status) s).2.2
            = false) := by
  intro s status cfg ext
  by_cases h : status = 200
  · subst h
    have h1 : (htp_hdrs_completecb 200 s).1 =
        { s with state := SessionState.PROXY_CONNECTED } := by
      simp [htp_hdrs_completecb]
    refine ⟨by simp [h1], by simp, ?_, by simp⟩
    intro _
    simp only [downstream_read_proxy_step, h1]
    split <;> rfl
  · have h1 : (htp_hdrs_completecb status s).1 =
        { s with state := SessionState.PROXY_FAILED } := by
      simp [htp_hdrs_completecb, h]
    refine ⟨by simp [h1, h], fun _ => by simp [h1], by simp [h], ?_⟩
    intro _
    simp [downstream_read_proxy_step, h1]

/-- Closed instance of `proxy_tunnel_status_classification`: a 200
response moves the tunnel to `PROXY_CONNECTED` and re-enters
`initiate_connection`; a 407 response moves it to `PROXY_FAILED` and the
read path fails. -/
theorem proxy_tunnel_status_classification_witness :
    (htp_hdrs_completecb 200 { baseSession with
        state := SessionState.PROXY_CONNECTING }).1.state
      = SessionState.PROXY_CONNECTED ∧
    (downstream_read_proxy_step cfgProxyClear extAllOk (.headersComplete 200)
      { baseSession with state := SessionState.PROXY_CONNECTING }).2.2
      = true ∧
    (htp_hdrs_completecb 407 { baseSession with
        state := SessionState.PROXY_CONNECTING }).1.state
      = SessionState.PROXY_FAILED ∧
    (downstream_read_proxy_step cfgProxyClear extAllOk (.headersComplete 407)
      { baseSession with state := SessionState.PROXY_CONNECTING }).2.1
      = -1 := by
  have h200 := proxy_tunnel_status_classification
    { baseSession with state := SessionState.PROXY_CONNECTING } 200
    cfgProxyClear extAllOk
  have h407 := proxy_tunnel_status_classification
    { baseSession with state := SessionState.PROXY_CONNECTING } 407
    cfgProxyClear extAllOk
  exact ⟨h200.1.mpr rfl, h200.2.2.1 rfl, h407.2.1 (by decide),
         (h407.2.2.2 (by decide)).1⟩

/-- Sending a frame that is not a SETTINGS frame without ACK leaves a
disarmed SETTINGS-ACK timer disarmed; so does receiving any frame. -/
theorem settingsTimerStep_preserves_disarmed (e : SessEvent)
    (h : armsSettingsTimer e = false) : settingsTimerStep false e = false := by
  cases e with
  | send hd =>
    rcases hd with ⟨ty, es, ack, sid⟩
    cases ty <;> cases ack <;>
      simp_all [armsSettingsTimer, settingsTimerStep,
        on_frame_send_settings_timer]
  | recv hd =>
    simp only [settingsTimerStep, on_frame_recv_settings_timer]
    split <;> rfl

/-- A disarmed SETTINGS-ACK timer stays disarmed over any trace that
never sends a SETTINGS frame without ACK. -/
theorem settingsTimerRun_stays_disarmed :
    ∀ evs : List SessEvent, (∀ e ∈ evs, armsSettingsTimer e = false) →
      settingsTimerRun false evs = false := by
  intro evs
  induction evs with
  | nil => intro _; rfl
  | cons e t ih =>
    intro h
    have he : settingsTimerStep false e = false :=
      settingsTimerStep_preserves_disarmed e (h e (List.mem_cons_self e t))
    have ht : settingsTimerRun false t = false :=
      ih (fun x hx => h x (List.mem_cons_of_mem e hx))
    simpa [settingsTimerRun, he] using ht

/-- C4: the SETTINGS-ACK timer is started by sending a SETTINGS frame
without ACK, stopped by receiving a SETTINGS frame with ACK, its expiry
terminates the session with GOAWAY code `SETTINGS_TIMEOUT`, and after an
ACK is observed the timer stays disarmed as long as no further SETTINGS
frame (without ACK) is sent. -/
theorem settings_timer_lifecycle :
    (∀ (a : Bool) (hd : FrameHd), hd.ty = .SETTINGS → hd.flagAck = false →
      on_frame_send_settings_timer hd a = true) ∧
    (∀ (a : Bool) (hd : FrameHd), hd.ty = .SETTINGS → hd.flagAck = true →
      on_frame_recv_settings_timer hd a = false) ∧
    (∀ ok : Bool,
      (settings_timeout_fire ok).terminate_code = NGHTTP2_SETTINGS_TIMEOUT ∧
      (settings_timeout_fire ok).armed = false) ∧
    (∀ evs : List SessEvent, (∀ e ∈ evs, armsSettingsTimer e = false) →
      ∀ (hd : FrameHd) (a : Bool), hd.ty = .SETTINGS → hd.flagAck = true →
      settingsTimerRun a (SessEvent.recv hd :: evs) = false) := by
  refine ⟨?_, ?_, ?_, ?_⟩
  · intro a hd hty hack
    simp [on_frame_send_settings_timer, hty, hack]
  · intro a hd hty hack
    simp [on_frame_recv_settings_timer, hty, hack]
  · intro ok
    cases ok <;> exact ⟨rfl, rfl⟩
  · intro evs h hd a hty hack
    have hstep : settingsTimerStep a (SessEvent.recv hd) = false := by
      simp [settingsTimerStep, on_frame_recv_settings_timer, hty, hack]
    have : settingsTimerRun a (SessEvent.recv hd :: evs) =
        settingsTimerRun false evs := by
      simp [settingsTimerRun, hstep]
    rw [this]
    exact settingsTimerRun_stays_disarmed evs h

/-- Closed instance of `settings_timer_lifecycle`: sending SETTINGS arms
the timer, receiving SETTINGS+ACK disarms it, expiry reports
`SETTINGS_TIMEOUT`, and after the ACK a trace of DATA traffic leaves the
timer disarmed. -/
theorem settings_timer_lifecycle_witness :
    on_frame_send_settings_timer ⟨.SETTINGS, false, false, 0⟩ false = true ∧
    on_frame_recv_settings_timer ⟨.SETTINGS, false, true, 0⟩ true = false ∧
    (settings_timeout_fire true).terminate_code = NGHTTP2_SETTINGS_TIMEOUT ∧
    settingsTimerRun true
      [SessEvent.recv ⟨.SETTINGS, false, true, 0⟩,
       SessEvent.send ⟨.DATA, true, false, 1⟩,
       SessEvent.recv ⟨.HEADERS, true, false, 1⟩] = false := by
  refine ⟨settings_timer_lifecycle.1 false ⟨.SETTINGS, false, false, 0⟩ rfl rfl,
          settings_timer_lifecycle.2.1 true ⟨.SETTINGS, false, true, 0⟩ rfl rfl,
          (settings_timer_lifecycle.2.2.1 true).1,
          settings_timer_lifecycle.2.2.2
            [SessEvent.send ⟨.DATA, true, false, 1⟩,
             SessEvent.recv ⟨.HEADERS, true, false, 1⟩]
            (by decide) ⟨.SETTINGS, false, true, 0⟩ true rfl rfl⟩

/-- C8: in the header callback, for a response HEADERS stream with a
known downstream passing the preceding validity checks, a content-length
value the integer parser rejects, or a content-length arriving when the
response content length is already set, submits RST_STREAM
(PROTOCOL_ERROR) on that stream, marks the response `MSG_BAD_HEADER`,
reports a temporal callback failure, and does not add the header. -/
theorem content_length_bad_header :
    ∀ (i : HeaderCbIn) (ds : Downstream),
      i.ds = some ds →
      i.frame_type = .HEADERS →
      i.headers_cat = .RESPONSE →
      ds.response_headers_sum ≤ i.max_headers_sum →
      i.nv_ok = true →
      i.name.head? ≠ some 58 →
      i.header_allowed = true →
      i.token_content_length = true →
      (parse_uint i.value = -1 ∨ ds.response_content_length ≠ -1) →
      on_header_callback i =
        (some { ds with response_state := ResponseState.MSG_BAD_HEADER },
         [(i.stream_id, NGHTTP2_PROTOCOL_ERROR)],
         NGHTTP2_ERR_TEMPORAL_CALLBACK_FAILURE) := by
  intro i ds hds hft hcat hsum hnv hname hha htok hbad
  have hsum2 : ¬ds.response_headers_sum > i.max_headers_sum :=
    Nat.not_lt.mpr hsum
  simp only [on_header_callback, hds, hft, hcat, hnv, hha, htok]
  rw [if_neg (by simp [hcat]), if_neg hsum2, if_neg (by simp [hnv]),
    if_neg (by simp [hname]), if_neg (by simp [hha]), if_pos trivial]
  rcases hbad with hb | hb
  · rw [if_pos hb]
  · by_cases hp : parse_uint i.value = -1
    · rw [if_pos hp]
    · rw [if_neg hp, if_pos hb]

/-- Closed instance of `content_length_bad_header`: a duplicate
`content-length: 3` on stream 1 (first value 5 already recorded) gets
RST_STREAM(PROTOCOL_ERROR), marks the response `MSG_BAD_HEADER`, and the
callback reports a temporal failure with the header list unchanged. -/
theorem content_length_bad_header_witness :
    on_header_callback hdrInDup =
      (some { dsDupCL with response_state := ResponseState.MSG_BAD_HEADER },
       [(1, NGHTTP2_PROTOCOL_ERROR)],
       NGHTTP2_ERR_TEMPORAL_CALLBACK_FAILURE) :=
  content_length_bad_header hdrInDup dsDupCL rfl rfl rfl (by decide) rfl
    (by decide) rfl rfl (Or.inr (by decide))

/-- `wb_.write` accepts `min(wleft, len)` bytes. -/
@[simp] theorem wbWrite_snd (wb : WBuf) (src : List Nat) :
    (wbWrite wb src).2 = min (wb.cap - wb.data.length) src.length := rfl

/-- `wb_.write` appends the accepted bytes. -/
@[simp] theorem wbWrite_fst_data (wb : WBuf) (src : List Nat) :
    (wbWrite wb src).1.data =
      wb.data ++ src.take (min (wb.cap - wb.data.length) src.length) := rfl

/-- `wb_.write` does not change the capacity. -/
@[simp] theorem wbWrite_fst_cap (wb : WBuf) (src : List Nat) :
    (wbWrite wb src).1.cap = wb.cap := rfl

/-- Unfolding equation for one step of the `mem_send` loop. -/
theorem sendLoop_cons (err : Bool) (wb : WBuf) (c : List Nat)
    (t : List (List Nat)) :
    sendLoop err wb (c :: t) =
      if c.length = 0 then (wb, [], t, none)
      else if (wbWrite wb c).2 < c.length then
        ((wbWrite wb c).1, c.drop (wbWrite wb c).2, t, some 0)
      else sendLoop err (wbWrite wb c).1 t := rfl

/-- After a partial `wb_.write` with positive capacity, the buffer is
full and in particular nonempty. -/
theorem wbWrite_partial_nonempty (wb : WBuf) (src : List Nat)
    (hcap : 0 < wb.cap) (h : (wbWrite wb src).2 < src.length) :
    (wbWrite wb src).1.data ≠ [] := by
  have hlt : min (wb.cap - wb.data.length) src.length < src.length := h
  have hWlt : wb.cap - wb.data.length < src.length := by
    rcases le_or_lt src.length (wb.cap - wb.data.length) with hge | h2
    · rw [Nat.min_eq_right hge] at hlt
      omega
    · exact h2
  have hmin : min (wb.cap - wb.data.length) src.length =
      wb.cap - wb.data.length := Nat.min_eq_left hWlt.le
  have hpos : 0 < ((wbWrite wb src).1.data).length := by
    simp only [wbWrite_fst_data, List.length_append, List.length_take, hmin]
    omega
  exact List.length_pos.mp hpos

/-- Splitting a list at any point and re-appending is the identity, with
a trailing context. -/
theorem take_drop_append_ctx (n : Nat) (c x : List Nat) :
    List.take n c ++ (List.drop n c ++ x) = c ++ x := by
  rw [← List.append_assoc, List.take_append_drop]

/-- The `mem_send` loop conserves bytes: the buffer contents, the pending
tail and the unconsumed codec output together are the initial buffer
contents followed by the full codec output, in order. -/
theorem sendLoop_conservation (err : Bool) :
    ∀ (cs : List (List Nat)) (wb : WBuf),
      (sendLoop err wb cs).1.data ++ (sendLoop err wb cs).2.1 ++
        ((sendLoop err wb cs).2.2.1).flatten = wb.data ++ cs.flatten := by
  intro cs
  induction cs with
  | nil =>
    intro wb
    cases err <;> simp [sendLoop]
  | cons c t ih =>
    intro wb
    by_cases hc : c.length = 0
    · have hce : c = [] := List.length_eq_zero.mp hc
      subst hce
      rw [sendLoop_cons]
      simp
    · rw [sendLoop_cons, if_neg hc]
      by_cases hlt : (wbWrite wb c).2 < c.length
      · rw [if_pos hlt]
        simp only [wbWrite_fst_data, wbWrite_snd, List.flatten_cons,
          List.append_assoc]
        rw [take_drop_append_ctx]
      · rw [if_neg hlt]
        have hn : min (wb.cap - wb.data.length) c.length = c.length := by
          have h1 := Nat.min_le_right (wb.cap - wb.data.length) c.length
          have h2 : ¬min (wb.cap - wb.data.length) c.length < c.length := hlt
          omega
        have hX : (wbWrite wb c).1 =
            { cap := wb.cap, data := wb.data ++ c } := by
          simp [wbWrite, hn]
        rw [hX, ih { cap := wb.cap, data := wb.data ++ c }]
        simp

/-- The `mem_send` loop only appends to the outbound buffer. -/
theorem sendLoop_data_extends (err : Bool) :
    ∀ (cs : List (List Nat)) (wb : WBuf),
      ∃ t, (sendLoop err wb cs).1.data = wb.data ++ t := by
  intro cs
  induction cs with
  | nil =>
    intro wb
    refine ⟨[], ?_⟩
    cases err <;> simp [sendLoop]
  | cons c t ih =>
    intro wb
    by_cases hc : c.length = 0
    · refine ⟨[], ?_⟩
      rw [sendLoop_cons, if_pos hc]
      simp
    · by_cases hlt : (wbWrite wb c).2 < c.length
      · refine ⟨c.take (wbWrite wb c).2, ?_⟩
        rw [sendLoop_cons, if_neg hc, if_pos hlt]
        rfl
      · obtain ⟨u, hu⟩ := ih (wbWrite wb c).1
        refine ⟨c.take (wbWrite wb c).2 ++ u, ?_⟩
        rw [sendLoop_cons, if_neg hc, if_neg hlt, hu]
        simp [List.append_assoc]

/-- The quiescence epilogue does not change the buffer, the pending tail
or the unconsumed codec output. -/
theorem dwFinish_proj (wantRead wantWrite : Bool)
    (r : WBuf × List Nat × List (List Nat) × Option Int) :
    (dwFinish wantRead wantWrite r).1 = r.1 ∧
    (dwFinish wantRead wantWrite r).2.1 = r.2.1 ∧
    (dwFinish wantRead wantWrite r).2.2.1 = r.2.2.1 := by
  rcases r with ⟨a, b, c, d⟩
  cases d with
  | none =>
    simp only [dwFinish]
    split <;> exact ⟨rfl, rfl, rfl⟩
  | some v => exact ⟨rfl, rfl, rfl⟩

/-- Unfolding equation for `downstream_write`. -/
theorem downstream_write_eq (err wantRead wantWrite : Bool)
    (chunks : List (List Nat)) (wb : WBuf) (pending : List Nat) :
    downstream_write err wantRead wantWrite chunks wb pending =
      if pending.length ≠ 0 then
        if (wbWrite wb pending).2 < pending.length then
          ((wbWrite wb pending).1, pending.drop (wbWrite wb pending).2,
           chunks, 0)
        else dwFinish wantRead wantWrite
          (sendLoop err (wbWrite wb pending).1 chunks)
      else dwFinish wantRead wantWrite (sendLoop err wb chunks) := rfl

/-- C3: over one write pass, the bytes in the outbound buffer, the
pending tail and the unconsumed codec output are exactly the initial
buffer contents, then the initial pending tail, then the codec output,
in order and without duplication; a pending tail larger than the free
space is partially copied and no codec produce call is consumed; a
pending tail that fits is copied into the buffer ahead of anything the
codec produces this pass. -/
theorem downstream_write_buffer_conservation :
    ∀ (err wantRead wantWrite : Bool) (chunks : List (List Nat))
      (wb : WBuf) (pending : List Nat),
      ((downstream_write err wantRead wantWrite chunks wb pending).1.data ++
       (downstream_write err wantRead wantWrite chunks wb pending).2.1 ++
       ((downstream_write err wantRead wantWrite chunks wb
           pending).2.2.1).flatten
         = wb.data ++ pending ++ chunks.flatten) ∧
      (wb.cap - wb.data.length < pending.length →
        (downstream_write err wantRead wantWrite chunks wb pending).2.2.1
            = chunks ∧
        (downstream_write err wantRead wantWrite chunks wb pending).1.data =
          wb.data ++ pending.take (wb.cap - wb.data.length) ∧
        (downstream_write err wantRead wantWrite chunks wb pending).2.1 =
          pending.drop (wb.cap - wb.data.length)) ∧
      (pending.length ≤ wb.cap - wb.data.length →
        ∃ t, (downstream_write err wantRead wantWrite chunks wb pending).1.data
          = wb.data ++ pending ++ t) := by
  intro err wR wW chunks wb pending
  by_cases hp : pending.length = 0
  · have hpe : pending = [] := List.length_eq_zero.mp hp
    subst hpe
    have hd : downstream_write err wR wW chunks wb [] =
        dwFinish wR wW (sendLoop err wb chunks) := by
      rw [downstream_write_eq]
      simp
    obtain ⟨p1, p2, p3⟩ := dwFinish_proj wR wW (sendLoop err wb chunks)
    refine ⟨?_, ?_, ?_⟩
    · rw [hd, p1, p2, p3]
      simpa using sendLoop_conservation err chunks wb
    · intro h
      simp at h
    · intro _
      obtain ⟨t, ht⟩ := sendLoop_data_extends err chunks wb
      refine ⟨t, ?_⟩
      rw [hd, p1]
      simpa using ht
  · rw [downstream_write_eq, if_pos hp]
    by_cases hlt : (wbWrite wb pending).2 < pending.length
    · rw [if_pos hlt]
      have hWlt : wb.cap - wb.data.length < pending.length := by
        have h1 : min (wb.cap - wb.data.length) pending.length <
            pending.length := hlt
        rcases le_or_lt pending.length (wb.cap - wb.data.length) with hge | h2
        · rw [Nat.min_eq_right hge] at h1
          omega
        · exact h2
      have hmin : min (wb.cap - wb.data.length) pending.length =
          wb.cap - wb.data.length := Nat.min_eq_left hWlt.le
      refine ⟨?_, ?_, ?_⟩
      · simp only [wbWrite_fst_data, wbWrite_snd, List.append_assoc]
        rw [take_drop_append_ctx]
      · intro _
        exact ⟨rfl, by simp [hmin], by simp [hmin]⟩
      · intro h
        omega
    · rw [if_neg hlt]
      have hn : min (wb.cap - wb.data.length) pending.length =
          pending.length := by
        have h1 := Nat.min_le_right (wb.cap - wb.data.length) pending.length
        have h2 : ¬min (wb.cap - wb.data.length) pending.length <
            pending.length := hlt
        omega
      have hple : pending.length ≤ wb.cap - wb.data.length := by
        have h2 : ¬min (wb.cap - wb.data.length) pending.length <
            pending.length := hlt
        rcases le_or_lt pending.length (wb.cap - wb.data.length) with hge | h3
        · exact hge
        · rw [Nat.min_eq_left h3.le] at h2
          omega
      have hX : (wbWrite wb pending).1 =
          { cap := wb.cap, data := wb.data ++ pending } := by
        simp [wbWrite, hn]
      obtain ⟨p1, p2, p3⟩ := dwFinish_proj wR wW
        (sendLoop err (wbWrite wb pending).1 chunks)
      refine ⟨?_, ?_, ?_⟩
      · rw [p1, p2, p3, hX,
          sendLoop_conservation err chunks { cap := wb.cap, data := wb.data ++ pending }]
      · intro h
        omega
      · intro _
        obtain ⟨t, ht⟩ := sendLoop_data_extends err chunks (wbWrite wb pending).1
        refine ⟨t, ?_⟩
        rw [p1, ht, hX]

/-- Closed instance of `downstream_write_buffer_conservation`: a pending
tail of 3 bytes facing 2 free bytes is copied as far as it fits, the
remainder stays pending, and the codec is not asked to produce. -/
theorem downstream_write_buffer_conservation_witness :
    (downstream_write false false false [[1, 2, 3]] ⟨2, []⟩ [9, 8, 7]).2.2.1
        = [[1, 2, 3]] ∧
    (downstream_write false false false [[1, 2, 3]] ⟨2, []⟩ [9, 8, 7]).1.data
        = [9, 8] ∧
    (downstream_write false false false [[1, 2, 3]] ⟨2, []⟩ [9, 8, 7]).2.1
        = [7] := by
  have h := (downstream_write_buffer_conservation false false false
    [[1, 2, 3]] ⟨2, []⟩ [9, 8, 7]).2.1 (by decide)
  refine ⟨h.1, ?_, ?_⟩
  · rw [h.2.1]
    decide
  · rw [h.2.2]
    decide

/-- Epilogue behaviour when the loop broke out normally. -/
theorem dwFinish_none (wantRead wantWrite : Bool)
    (r : WBuf × List Nat × List (List Nat) × Option Int)
    (h : r.2.2.2 = none) :
    dwFinish wantRead wantWrite r =
      if wantRead = false ∧ wantWrite = false ∧ r.1.data.length = 0 then
        (r.1, r.2.1, r.2.2.1, -1)
      else (r.1, r.2.1, r.2.2.1, 0) := by
  rcases r with ⟨a, b, c, d⟩
  cases d with
  | none => rfl
  | some v => simp at h

/-- Epilogue behaviour on an in-loop return. -/
theorem dwFinish_some (wantRead wantWrite : Bool)
    (r : WBuf × List Nat × List (List Nat) × Option Int) (v : Int)
    (h : r.2.2.2 = some v) :
    dwFinish wantRead wantWrite r = (r.1, r.2.1, r.2.2.1, v) := by
  rcases r with ⟨a, b, c, d⟩
  cases d with
  | none => simp at h
  | some w =>
    simp only [Option.some.injEq] at h
    subst h
    rfl

/-- With a healthy codec, the `mem_send` loop either breaks out normally
or returns 0 on a partial write; it never reports an error. -/
theorem sendLoop_no_codec_err :
    ∀ (cs : List (List Nat)) (wb : WBuf),
      (sendLoop false wb cs).2.2.2 = none ∨
      (sendLoop false wb cs).2.2.2 = some 0 := by
  intro cs
  induction cs with
  | nil =>
    intro wb
    left
    rfl
  | cons c t ih =>
    intro wb
    by_cases hc : c.length = 0
    · left
      rw [sendLoop_cons, if_pos hc]
    · by_cases hlt : (wbWrite wb c).2 < c.length
      · right
        rw [sendLoop_cons, if_neg hc, if_pos hlt]
      · rw [sendLoop_cons, if_neg hc, if_neg hlt]
        exact ih (wbWrite wb c).1

/-- When the `mem_send` loop returns 0 on a partial write, the outbound
buffer ends the pass full, hence nonempty when its capacity is
positive. -/
theorem sendLoop_partial_data_nonempty (err : Bool) :
    ∀ (cs : List (List Nat)) (wb : WBuf), 0 < wb.cap →
      (sendLoop err wb cs).2.2.2 = some 0 →
      (sendLoop err wb cs).1.data ≠ [] := by
  intro cs
  induction cs with
  | nil =>
    intro wb _ h
    exact absurd h (by cases err <;> simp [sendLoop])
  | cons c t ih =>
    intro wb hcap h
    by_cases hc : c.length = 0
    · rw [sendLoop_cons, if_pos hc] at h
      exact absurd h (by simp)
    · by_cases hlt : (wbWrite wb c).2 < c.length
      · rw [sendLoop_cons, if_neg hc, if_pos hlt]
        exact wbWrite_partial_nonempty wb c hcap hlt
      · rw [sendLoop_cons, if_neg hc, if_neg hlt] at h ⊢
        exact ih (wbWrite wb c).1 (by simpa using hcap) h

/-- For the error-free `mem_send` loop followed by the quiescence
epilogue: the pass reports failure exactly when the codec wants neither
to read nor to write and the outbound buffer ends the pass empty. -/
theorem write_tail_iff (wantRead wantWrite : Bool)
    (chunks : List (List Nat)) (wb : WBuf) (hcap : 0 < wb.cap) :
    ((dwFinish wantRead wantWrite (sendLoop false wb chunks)).2.2.2 = -1 ↔
      (wantRead = false ∧ wantWrite = false ∧
        (dwFinish wantRead wantWrite (sendLoop false wb chunks)).1.data
          = [])) := by
  rcases sendLoop_no_codec_err chunks wb with hn | hs
  · rw [dwFinish_none wantRead wantWrite _ hn]
    by_cases hcond : wantRead = false ∧ wantWrite = false ∧
        (sendLoop false wb chunks).1.data.length = 0
    · rw [if_pos hcond]
      simp only [List.length_eq_zero] at hcond
      simp [hcond.1, hcond.2.1, hcond.2.2]
    · rw [if_neg hcond]
      simp only [List.length_eq_zero] at hcond
      simp only [show ((sendLoop false wb chunks).1,
        (sendLoop false wb chunks).2.1, (sendLoop false wb chunks).2.2.1,
        (0 : Int)).2.2.2 = (0 : Int) from rfl]
      constructor
      · intro h0
        exact absurd h0 (by decide)
      · intro hx
        exact absurd hx hcond
  · rw [dwFinish_some wantRead wantWrite _ 0 hs]
    have hne := sendLoop_partial_data_nonempty false chunks wb hcap hs
    constructor
    · intro h0
      simp at h0
    · intro hx
      exact absurd hx.2.2 hne

/-- C10: a `downstream_read` or `downstream_write` pass in the CONNECTED
state that completes without a codec error returns failure exactly when
the codec wants neither to read nor to write and the outbound buffer is
empty (the quiescent session), and returns success otherwise. -/
theorem quiescent_session_failure :
    ∀ (recvOk wantRead wantWrite err : Bool) (rb pending : List Nat)
      (wb wbw : WBuf) (chunks : List (List Nat)),
      (recvOk = true →
        ((downstream_read recvOk wantRead wantWrite rb wb).1 = -1 ↔
          (wantRead = false ∧ wantWrite = false ∧ wb.data = []))) ∧
      (err = false → 0 < wbw.cap →
        ((downstream_write err wantRead wantWrite chunks wbw pending).2.2.2
            = -1 ↔
          (wantRead = false ∧ wantWrite = false ∧
            (downstream_write err wantRead wantWrite chunks wbw
              pending).1.data = []))) := by
  intro recvOk wR wW err rb pending wb wbw chunks
  constructor
  · intro h
    subst h
    simp only [downstream_read]
    rw [if_neg (by simp)]
    by_cases hcond : wR = false ∧ wW = false ∧ wb.data.length = 0
    · rw [if_pos hcond]
      simp only [List.length_eq_zero] at hcond
      simp [hcond.1, hcond.2.1, hcond.2.2]
    · rw [if_neg hcond]
      simp only [List.length_eq_zero] at hcond
      constructor
      · intro h0
        exact absurd h0 (by decide)
      · intro hx
        exact absurd hx hcond
  · intro he hcap
    subst he
    rw [downstream_write_eq]
    by_cases hp : pending.length ≠ 0
    · rw [if_pos hp]
      by_cases hlt : (wbWrite wbw pending).2 < pending.length
      · rw [if_pos hlt]
        have hne := wbWrite_partial_nonempty wbw pending hcap hlt
        constructor
        · intro h0
          simp at h0
        · intro hx
          exact absurd hx.2.2 hne
      · rw [if_neg hlt]
        exact write_tail_iff wR wW chunks (wbWrite wbw pending).1
          (by simpa using hcap)
    · rw [if_neg hp]
      exact write_tail_iff wR wW chunks wbw hcap

/-- Closed instance of `quiescent_session_failure`: with an empty
outbound buffer and a codec that wants neither direction, both passes
report the session dead; with the codec still wanting to read, both
report success. -/
theorem quiescent_session_failure_witness :
    (downstream_read true false false [] ⟨16, []⟩).1 = -1 ∧
    (downstream_write false false false [] ⟨16, []⟩ []).2.2.2 = -1 ∧
    (downstream_read true true false [] ⟨16, []⟩).1 = 0 := by
  have h1 := quiescent_session_failure true false false false [] []
    ⟨16, []⟩ ⟨16, []⟩ []
  exact ⟨(h1.1 rfl).mpr ⟨rfl, rfl, rfl⟩,
         (h1.2 rfl (by decide)).mpr ⟨rfl, rfl, by decide⟩,
         by decide⟩

end shrpx
